import Mathlib

/-!
Verification of the WebPush_Notifications dispatch service against its
specification.  The Rust source is embedded shallowly: `serde_json`
values become the `Json` inductive below (with the crate's default
`BTreeMap` object representation, i.e. keys kept sorted), pure Rust
functions become Lean functions, calls into external crates
(`web_push`, the file system) become explicit parameters carrying the
call's outcome, and a Rust `panic!` / `.unwrap()` on an error value
becomes a dedicated result constructor.
-/

namespace WebPush

/-- A `serde_json::Value`.  Objects carry their members as a list kept
sorted by key, mirroring the crate's default `BTreeMap<String, Value>`
backing; numbers are modelled as integers (the notification fields that
reach a number position — `timestamp`, `vibrate` entries — are unsigned
integers in the source). -/
inductive Json where
  | null
  | bool (b : Bool)
  | num (n : Int)
  | str (s : String)
  | arr (elems : List Json)
  | obj (members : List (String × Json))

/-- Lexicographic strict order on character lists, by code point. -/
def ltChars : List Char → List Char → Bool
  | [], [] => false
  | [], _ :: _ => true
  | _ :: _, [] => false
  | a :: as, b :: bs =>
    if a.toNat < b.toNat then true
    else if b.toNat < a.toNat then false
    else ltChars as bs

/-- The strict order `Ord for String` that `BTreeMap<String, _>` sorts
by: lexicographic on UTF-8 bytes, which coincides with lexicographic
order on code points. -/
def strLt (a b : String) : Bool := ltChars a.toList b.toList

/-- Insertion into the sorted member list of a JSON object, replacing an
existing binding of the same key: the effect of `BTreeMap::insert` on the
ordered entry list. -/
def insertSorted (k : String) (v : Json) : List (String × Json) → List (String × Json)
  | [] => [(k, v)]
  | (k', v') :: rest =>
    if k = k' then (k, v) :: rest
    else if strLt k k' then (k, v) :: (k', v') :: rest
    else (k', v') :: insertSorted k v rest

/-- Key lookup in a JSON object's member list. -/
def getKey (members : List (String × Json)) (k : String) : Option Json :=
  match members with
  | [] => none
  | (k', v) :: rest => if k = k' then some v else getKey rest k

/-- The statement `value[key] = v` on a `serde_json::Value` (via
`IndexMut<&str>`): a `Null` receiver is first replaced by an empty
object, an object receives the binding, and any other receiver panics —
modelled as `none`. -/
def Json.setKey : Json → String → Json → Option Json
  | .null, k, v => some (.obj (insertSorted k v []))
  | .obj m, k, v => some (.obj (insertSorted k v m))
  | _, _, _ => none

/-- Receivers on which `value[key] = v` does not panic. -/
def Json.isObjOrNull : Json → Bool
  | .null => true
  | .obj _ => true
  | _ => false

/-- `enum Operation` from `routes/notify.rs`. -/
inductive Operation where
  | OpenWindow
  | FocusLastFocusedOrOpen
  | NavigateLastFocusedOrOpen
  | SendRequest
deriving DecidableEq

/-- The wire name of an `Operation` variant under
`#[serde(rename_all="camelCase")]`. -/
def Operation.serdeName : Operation → String
  | .OpenWindow => "openWindow"
  | .FocusLastFocusedOrOpen => "focusLastFocusedOrOpen"
  | .NavigateLastFocusedOrOpen => "navigateLastFocusedOrOpen"
  | .SendRequest => "sendRequest"

/-- `struct Action` from `routes/notify.rs`. -/
structure Action where
  title : String
  operation : Operation
  url : String
deriving DecidableEq

/-- `struct Notification` from `routes/notify.rs` (the inbound
notification descriptor). -/
structure Notification where
  title : String
  badge : Option String
  body : Option String
  data : Option Json
  icon : Option String
  image : Option String
  lang : Option String
  renotify : Option Bool
  require_interaction : Option Bool
  silent : Option Bool
  tag : Option String
  timestamp : Option Nat
  vibrate : Option (List Nat)
  actions : Option (List Action)

/-- `struct ActionPush` from `routes/notify.rs`. -/
structure ActionPush where
  action : String
  title : String
deriving DecidableEq

/-- `struct NotifPush` from `routes/notify.rs` (the outbound wire
shape). -/
structure NotifPush where
  title : String
  badge : Option String
  body : Option String
  data : Option Json
  icon : Option String
  image : Option String
  lang : Option String
  renotify : Option Bool
  require_interaction : Option Bool
  silent : Option Bool
  tag : Option String
  timestamp : Option Nat
  vibrate : Option (List Nat)
  actions : Option (List ActionPush)

/-- The body of the `actions.map` closure in `From<Notification> for
NotifPush`: walks the input actions carrying the running `count` and the
accumulated `on_action_click` object, producing the `ActionPush` list
and the final `on_action_click` members.  Each action is keyed
`"A{count}"`, overridden to `"default"` when its title is `"default"`,
and `{operation, url}` is recorded under that key. -/
def actionsLoop : List Action → Nat → List (String × Json) →
    List ActionPush × List (String × Json)
  | [], _, on_action_click => ([], on_action_click)
  | row :: rest, count, on_action_click =>
    let count' := count + 1
    let ret : ActionPush :=
      if row.title = "default" then { action := "default", title := row.title }
      else { action := "A" ++ toString count', title := row.title }
    let a : Json :=
      .obj (insertSorted "operation" (.str row.operation.serdeName)
        (insertSorted "url" (.str row.url) []))
    let res := actionsLoop rest count' (insertSorted ret.action a on_action_click)
    (ret :: res.1, res.2)

/-- `impl From<Notification> for NotifPush` (`routes/notify.rs`).
Returns `none` exactly when the Rust code panics: the assignment
`data["onActionClick"] = on_action_click` on a present `data` value that
is neither an object nor `Null`.  Note that the local `d` starts as
`None` and is only assigned inside the `actions.map` closure when the
mapped list is non-empty, so `data` is dropped whenever no action
exists. -/
def NotifPush.fromNotification (value : Notification) : Option NotifPush :=
  match value.actions with
  | none =>
    some { title := value.title, badge := value.badge, body := value.body,
           data := none, icon := value.icon, image := value.image,
           lang := value.lang, renotify := value.renotify,
           require_interaction := value.require_interaction,
           silent := value.silent, tag := value.tag,
           timestamp := value.timestamp, vibrate := value.vibrate,
           actions := none }
  | some val =>
    let res := actionsLoop val 0 []
    let actions := res.1
    let on_action_click := res.2
    let dOpt : Option (Option Json) :=
      if 0 < actions.length then
        match value.data with
        | some data =>
          match data.setKey "onActionClick" (.obj on_action_click) with
          | some merged => some (some merged)
          | none => none
        | none =>
          some (some (.obj (insertSorted "onActionClick" (.obj on_action_click) [])))
      else some none
    match dOpt with
    | none => none
    | some d =>
      let filtered := actions.filter (fun row => row.action ≠ "default")
      let a : Option (List ActionPush) := if filtered.isEmpty then none else some filtered
      some { title := value.title, badge := value.badge, body := value.body,
             data := d, icon := value.icon, image := value.image,
             lang := value.lang, renotify := value.renotify,
             require_interaction := value.require_interaction,
             silent := value.silent, tag := value.tag,
             timestamp := value.timestamp, vibrate := value.vibrate,
             actions := a }

/-- One optional struct field under
`#[serde(skip_serializing_if = "Option::is_none")]`: absent fields
contribute no member at all. -/
def optMember {α : Type} (name : String) (f : α → Json) : Option α → List (String × Json)
  | none => []
  | some v => [(name, f v)]

/-- serde serialization of an `ActionPush` into a `serde_json::Value`. -/
def ActionPush.toValue (a : ActionPush) : Json :=
  .obj (insertSorted "action" (.str a.action) (insertSorted "title" (.str a.title) []))

/-- The members of a `NotifPush` in serde's field-traversal order
(struct declaration order), with every `Option` field skipped when
`None`. -/
def NotifPush.members (p : NotifPush) : List (String × Json) :=
  ("title", .str p.title)
    :: optMember "badge" Json.str p.badge
    ++ optMember "body" Json.str p.body
    ++ optMember "data" id p.data
    ++ optMember "icon" Json.str p.icon
    ++ optMember "image" Json.str p.image
    ++ optMember "lang" Json.str p.lang
    ++ optMember "renotify" Json.bool p.renotify
    ++ optMember "require_interaction" Json.bool p.require_interaction
    ++ optMember "silent" Json.bool p.silent
    ++ optMember "tag" Json.str p.tag
    ++ optMember "timestamp" (fun n => Json.num (Int.ofNat n)) p.timestamp
    ++ optMember "vibrate" (fun l => Json.arr (l.map (fun n => Json.num (Int.ofNat n)))) p.vibrate
    ++ optMember "actions" (fun l => Json.arr (l.map ActionPush.toValue)) p.actions

/-- Collection of serialized struct members into a `serde_json` object
(a `BTreeMap`, so the entry list ends up sorted by key). -/
def collectMembers (l : List (String × Json)) : List (String × Json) :=
  l.foldl (fun acc kv => insertSorted kv.1 kv.2 acc) []

/-- serde serialization of a `NotifPush` into a `serde_json::Value`, as
performed by the `json!({"notification": notif_push})` expression in the
`notify` handler. -/
def NotifPush.toValue (p : NotifPush) : Json :=
  .obj (collectMembers p.members)

/-- Hexadecimal digit used by `serde_json`'s `\u00XX` escapes. -/
def hexDigit (n : Nat) : Char :=
  if n < 10 then Char.ofNat (48 + n) else Char.ofNat (87 + n)

/-- `serde_json`'s escaping of a single character inside a JSON string
literal. -/
def escapeChar (c : Char) : String :=
  if c = '"' then "\\\""
  else if c = '\\' then "\\\\"
  else if c = Char.ofNat 8 then "\\b"
  else if c = Char.ofNat 12 then "\\f"
  else if c = '\n' then "\\n"
  else if c = Char.ofNat 13 then "\\r"
  else if c = '\t' then "\\t"
  else if c.toNat < 32 then
    "\\u00" ++ String.mk [hexDigit (c.toNat / 16), hexDigit (c.toNat % 16)]
  else String.mk [c]

/-- A JSON string literal with `serde_json` escaping. -/
def escapeString (s : String) : String :=
  "\"" ++ String.join (s.toList.map escapeChar) ++ "\""

mutual

/-- `serde_json::to_string` on a `Value`: compact rendering, members in
entry-list order. -/
def renderJson : Json → String
  | .null => "null"
  | .bool true => "true"
  | .bool false => "false"
  | .num n => toString n
  | .str s => escapeString s
  | .arr l => "[" ++ renderArr l ++ "]"
  | .obj m => "\x7b" ++ renderObj m ++ "\x7d"

/-- Comma-separated rendering of array elements. -/
def renderArr : List Json → String
  | [] => ""
  | [x] => renderJson x
  | x :: y :: rest => renderJson x ++ "," ++ renderArr (y :: rest)

/-- Comma-separated rendering of object members. -/
def renderObj : List (String × Json) → String
  | [] => ""
  | [(k, v)] => escapeString k ++ ":" ++ renderJson v
  | (k, v) :: kv :: rest =>
    escapeString k ++ ":" ++ renderJson v ++ "," ++ renderObj (kv :: rest)

end

/-- The serialized wire payload built by the `notify` handler:
`serde_json::to_string(&json!({"notification": notif_push})).unwrap()`,
with `notif_push` the transform of the (timestamp-carrying) descriptor.
`none` when the transform panics. -/
def wirePayload (value : Notification) : Option String :=
  (NotifPush.fromNotification value).map fun p =>
    renderJson (.obj (insertSorted "notification" p.toValue []))

/-- `struct SubscriptionKeys` from `routes/notify.rs`. -/
structure SubscriptionKeys where
  p256dh : String
  auth : String
deriving DecidableEq

/-- `struct Subscription` from `routes/notify.rs`. -/
structure Subscription where
  endpoint : String
  keys : SubscriptionKeys
deriving DecidableEq

/-- `struct NotificationRequest` from `routes/notify.rs` (the `payload`
wrapper struct holds exactly the notification). -/
structure NotificationRequest where
  subscription : Subscription
  notification : Notification

/-- `enum NotifyResponses` from `routes/notify.rs`. -/
inductive NotifyResponses where
  | Ok (msg : String)
  | NotFound
  | BadRequest (msg : String)
  | InternalServerError (msg : String)
deriving DecidableEq

/-- Result of running the `notify` handler body: either a response or a
process-level panic (a Rust `.unwrap()` on an `Err`, or the indexing
panic inside the notification transform). -/
inductive HandlerResult where
  | response (r : NotifyResponses)
  | panicked
deriving DecidableEq

/-- Outcomes of the external `web_push` library calls made by `notify`,
one flag per fallible call site: `VapidSignatureBuilder::from_base64`,
`.build()` on the signature builder, `WebPushMessageBuilder::build()`
(payload encryption) and `client.send`. -/
structure PushEnv where
  vapidFromBase64Ok : Bool
  vapidBuildOk : Bool
  messageBuildOk : Bool
  sendOk : Bool
deriving DecidableEq

/-- The `notify` handler from `routes/notify.rs`, with the `web_push`
library calls abstracted by `env`.  Control flow follows the source: the
timestamp is defaulted to the current epoch milliseconds, the descriptor
is transformed and serialized (`.unwrap()` — the transform's panic
propagates), signature parse and build failures return
`InternalServerError`, the message build result is `.unwrap()`ed (a
failure panics), and a send failure returns `InternalServerError`. -/
def notify (env : PushEnv) (now_ms : Nat) (req : NotificationRequest) : HandlerResult :=
  let n := req.notification
  let n := if n.timestamp.isNone then { n with timestamp := some now_ms } else n
  match NotifPush.fromNotification n with
  | none => .panicked
  | some _notif_push =>
    if !env.vapidFromBase64Ok then
      .response (.InternalServerError "VAPID PEM parse error")
    else if !env.vapidBuildOk then
      .response (.InternalServerError "VAPID signature error")
    else if !env.messageBuildOk then
      .panicked
    else if !env.sendOk then
      .response (.InternalServerError "Failed to send push")
    else
      .response (.Ok "Push sent successfully")

/-- Result of the `auth` middleware from `auth.rs`: either the request is
forwarded to the next handler, or a `401 UNAUTHORIZED` is returned. -/
inductive AuthResult where
  | forwarded (req : NotificationRequest)
  | unauthorized

/-- The `auth` middleware from `auth.rs`: reads the `api_key` header
(`none` models both a missing header and a non-string header value,
which `to_str().ok()` collapses into the same case), rejects with 401
when it is absent or differs from the configured key, and otherwise
runs the next handler on the unchanged request. -/
def auth (api_key : String) (header : Option String) (req : NotificationRequest) :
    AuthResult :=
  match header with
  | none => .unauthorized
  | some auth_header =>
    if auth_header = api_key then .forwarded req else .unauthorized

/-- `struct KeysJson` from `conf.rs`. -/
structure KeysJson where
  public_key : String
  private_key : String
deriving DecidableEq

/-- `enum GetPuKeyResponses` from `routes/get_public_key.rs` — its only
variant is the 200 response. -/
inductive GetPuKeyResponses where
  | Ok (msg : String)
deriving DecidableEq

/-- The `get_public_key` handler from `routes/get_public_key.rs`: the
keys were loaded into shared state at startup and the handler
unconditionally returns the stored public key. -/
def get_public_key (conf : KeysJson) : GetPuKeyResponses :=
  .Ok conf.public_key

/-- `enum GetPuKeyResponses` from `main.rs` (the file-reading variant of
the endpoint). -/
inductive GetPuKeyResponsesMain where
  | Ok (msg : String)
  | InternalServerError (msg : String)
deriving DecidableEq

/-- The `get_public_key` handler from `main.rs`: reads `keys.json`
(`readFile = none` models a read failure), parses it (`parseKeys`
models `serde_json::from_str::<KeysJson>`), and returns the stored
public key; each failure is a 500. -/
def get_public_key_main (readFile : Option String)
    (parseKeys : String → Option KeysJson) : GetPuKeyResponsesMain :=
  match readFile with
  | none => .InternalServerError "keys.json not found"
  | some pem =>
    match parseKeys pem with
    | none => .InternalServerError "VAPID keys parse error"
    | some keys => .Ok keys.public_key

/-- The base64url alphabet (RFC 4648 §5) used by
`BASE64_URL_SAFE_NO_PAD`. -/
def b64alphabet : List Char :=
  "ABCDEFGHIJKLMNOPQRSTUVWXYZabcdefghijklmnopqrstuvwxyz0123456789-_".toList

/-- The alphabet character of a six-bit group. -/
def encSextet (n : Nat) : Char := b64alphabet.getD n 'A'

/-- The six-bit value of an alphabet character. -/
def decSextet (c : Char) : Option Nat := b64alphabet.findIdx? (fun x => x == c)

/-- Unpadded base64 of a byte string: three bytes per four characters,
with a two- or three-character tail group and no `=` padding. -/
def b64encode : List Nat → List Char
  | [] => []
  | [a] => [encSextet (a / 4), encSextet (a % 4 * 16)]
  | [a, b] =>
    [encSextet (a / 4), encSextet (a % 4 * 16 + b / 16), encSextet (b % 16 * 4)]
  | a :: b :: c :: rest =>
    encSextet (a / 4) :: encSextet (a % 4 * 16 + b / 16) ::
      encSextet (b % 16 * 4 + c / 64) :: encSextet (c % 64) :: b64encode rest

/-- Unpadded base64 decoding, the inverse reading of `b64encode`;
`none` on a character outside the alphabet or an impossible length. -/
def b64decode : List Char → Option (List Nat)
  | [] => some []
  | [w, x] =>
    match decSextet w, decSextet x with
    | some w', some x' => some [w' * 4 + x' / 16]
    | _, _ => none
  | [w, x, y] =>
    match decSextet w, decSextet x, decSextet y with
    | some w', some x', some y' => some [w' * 4 + x' / 16, x' % 16 * 16 + y' / 4]
    | _, _, _ => none
  | w :: x :: y :: z :: rest =>
    match decSextet w, decSextet x, decSextet y, decSextet z, b64decode rest with
    | some w', some x', some y', some z', some tail =>
      some ((w' * 4 + x' / 16) :: (x' % 16 * 16 + y' / 4) :: (y' % 4 * 64 + z') :: tail)
    | _, _, _, _, _ => none
  | [_] => none

/-- Big-endian byte serialization at a fixed width: the effect of
`BigNum::to_vec_padded(k)` for a value below `256 ^ k`. -/
def beBytes : Nat → Nat → List Nat
  | 0, _ => []
  | k + 1, n => beBytes k (n / 256) ++ [n % 256]

/-- The numeric value of a big-endian byte list. -/
def beVal (l : List Nat) : Nat :=
  l.foldl (fun acc b => acc * 256 + b) 0

/-- An EC P-256 keypair as drawn by `EcKey::generate`: the private
scalar `d` and the affine coordinates `x`, `y` of the public point; on
P-256 all three fit in 32 big-endian bytes. -/
structure ECKeyPair where
  d : Nat
  x : Nat
  y : Nat
deriving DecidableEq

/-- The byte form `0x04 || X || Y` produced by `EcPoint::to_bytes` with
`PointConversionForm::UNCOMPRESSED` on P-256: 65 bytes, with each
coordinate as 32 big-endian bytes. -/
def pubBytes (kp : ECKeyPair) : List Nat :=
  4 :: (beBytes 32 kp.x ++ beBytes 32 kp.y)

/-- The byte form produced by `BigNum::to_vec_padded(32)` on the private
scalar: its 32-byte big-endian representation. -/
def privBytes (kp : ECKeyPair) : List Nat :=
  beBytes 32 kp.d

/-- `generate_vapid_keys` from `conf.rs`, parameterized by the randomly
drawn keypair: the uncompressed public point and the padded private
scalar are both encoded with `BASE64_URL_SAFE_NO_PAD`. -/
def generate_vapid_keys (kp : ECKeyPair) : KeysJson :=
  { public_key := String.mk (b64encode (pubBytes kp)),
    private_key := String.mk (b64encode (privBytes kp)) }

/-- `enum TraceLevel` from `conf.rs`. -/
inductive TraceLevel where
  | DEBUG
  | INFO
  | TRACE
deriving DecidableEq

/-- `struct OpenApi` from `conf.rs`; the `utoipa` `Contact` member is
opaque to this development and omitted. -/
structure OpenApi where
  title : String
  description : String
  version : String
deriving DecidableEq

/-- `struct Server` from `conf.rs`. -/
structure Server where
  trace_level : TraceLevel
  accept_from : String
  port : Nat
  api_key : String
deriving DecidableEq

/-- `struct ConfFile` from `conf.rs`. -/
structure ConfFile where
  openapi : OpenApi
  keys : KeysJson
  server : Server
deriving DecidableEq

/-- The configuration value constructed by `load_conf_file` when
`conf.json` is absent. -/
def defaultConf (keys : KeysJson) : ConfFile :=
  { openapi := { title := "Webpush Notificator",
                 description := "This sends notifications through webpush",
                 version := "0.0.0" },
    keys := keys,
    server := { trace_level := .TRACE, accept_from := "0.0.0.0",
                port := 1000, api_key := "ApiKey_ArchiSecreta" } }

/-- Result of `load_conf_file`: a configuration (with a flag recording
whether the file was written during this startup) or a startup abort
(`panic!`). -/
inductive LoadResult where
  | conf (c : ConfFile) (wroteFile : Bool)
  | panicked
deriving DecidableEq

/-- `load_conf_file` from `conf.rs`.  `readRes` is the outcome of
`fs::read` (`none` models a read failure, in particular an absent
file), `parseConf` models `serde_json::from_slice::<ConfFile>`, `kp`
the randomness drawn by `EcKey::generate`, and `writeOk` the outcome of
`fs::write`.  On a successful read the parsed configuration is used
unchanged (parse failure panics); otherwise a fresh keypair is encoded,
the default configuration is written (write failure panics) and then
used. -/
def load_conf_file (readRes : Option String)
    (parseConf : String → Option ConfFile) (kp : ECKeyPair) (writeOk : Bool) :
    LoadResult :=
  match readRes with
  | some bytes =>
    match parseConf bytes with
    | some k => .conf k false
    | none => .panicked
  | none =>
    let conf := defaultConf (generate_vapid_keys kp)
    if writeOk then .conf conf true else .panicked

/-! Helper lemmas shared by the claim theorems. -/

theorem decSextet_encSextet_fin : ∀ i : Fin 64, decSextet (encSextet i.val) = some i.val := by
  decide

theorem decSextet_encSextet (n : Nat) (h : n < 64) : decSextet (encSextet n) = some n :=
  decSextet_encSextet_fin ⟨n, h⟩

theorem b64decode_b64encode : ∀ l : List Nat, (∀ x ∈ l, x < 256) →
    b64decode (b64encode l) = some l
  | [], _ => rfl
  | [a], h => by
    have ha : a < 256 := h a (by simp)
    have h1 := decSextet_encSextet (a / 4) (by omega)
    have h2 := decSextet_encSextet (a % 4 * 16) (by omega)
    simp [b64encode, b64decode, h1, h2]
    omega
  | [a, b], h => by
    have ha : a < 256 := h a (by simp)
    have hb : b < 256 := h b (by simp)
    have h1 := decSextet_encSextet (a / 4) (by omega)
    have h2 := decSextet_encSextet (a % 4 * 16 + b / 16) (by omega)
    have h3 := decSextet_encSextet (b % 16 * 4) (by omega)
    simp [b64encode, b64decode, h1, h2, h3]
    omega
  | a :: b :: c :: rest, h => by
    have ha : a < 256 := h a (by simp)
    have hb : b < 256 := h b (by simp)
    have hc : c < 256 := h c (by simp)
    have ih := b64decode_b64encode rest (fun x hx => h x (by simp [hx]))
    have h1 := decSextet_encSextet (a / 4) (by omega)
    have h2 := decSextet_encSextet (a % 4 * 16 + b / 16) (by omega)
    have h3 := decSextet_encSextet (b % 16 * 4 + c / 64) (by omega)
    have h4 := decSextet_encSextet (c % 64) (by omega)
    simp [b64encode, b64decode, h1, h2, h3, h4, ih]
    omega

theorem beBytes_length : ∀ (k n : Nat), (beBytes k n).length = k
  | 0, _ => rfl
  | k + 1, n => by simp [beBytes, beBytes_length k]

theorem beBytes_lt : ∀ (k n : Nat), ∀ x ∈ beBytes k n, x < 256
  | 0, _ => by simp [beBytes]
  | k + 1, n => by
    intro x hx
    simp only [beBytes, List.mem_append, List.mem_singleton] at hx
    rcases hx with hx | hx
    · exact beBytes_lt k (n / 256) x hx
    · omega

theorem beVal_append_singleton (xs : List Nat) (b : Nat) :
    beVal (xs ++ [b]) = beVal xs * 256 + b := by
  simp [beVal, List.foldl_append]

theorem beVal_beBytes : ∀ (k n : Nat), beVal (beBytes k n) = n % 256 ^ k
  | 0, n => by simp [beBytes, beVal, Nat.mod_one]
  | k + 1, n => by
    rw [beBytes, beVal_append_singleton, beVal_beBytes k (n / 256)]
    rw [pow_succ, mul_comm (256 ^ k) 256, Nat.mod_mul]
    ring

theorem mem_keys_insertSorted (k s : String) (v : Json) :
    ∀ m : List (String × Json),
      s ∈ (insertSorted k v m).map Prod.fst ↔ s = k ∨ s ∈ m.map Prod.fst
  | [] => by simp [insertSorted]
  | (k', v') :: rest => by
    by_cases hk : k = k'
    · subst hk
      simp [insertSorted]
    · by_cases hlt : strLt k k' = true
      · simp [insertSorted, hk, hlt]
      · simp [insertSorted, hk, hlt, mem_keys_insertSorted k s v rest]
        tauto

theorem mem_keys_foldl (s : String) :
    ∀ (l acc : List (String × Json)),
      s ∈ (l.foldl (fun acc kv => insertSorted kv.1 kv.2 acc) acc).map Prod.fst ↔
        s ∈ acc.map Prod.fst ∨ s ∈ l.map Prod.fst
  | [], acc => by simp
  | kv :: rest, acc => by
    rw [List.foldl_cons, mem_keys_foldl s rest, mem_keys_insertSorted]
    simp only [List.map_cons, List.mem_cons]
    tauto

theorem mem_keys_collectMembers (s : String) (l : List (String × Json)) :
    s ∈ (collectMembers l).map Prod.fst ↔ s ∈ l.map Prod.fst := by
  rw [collectMembers, mem_keys_foldl]
  simp

theorem optMember_keys {α : Type} (s name : String) (f : α → Json) (o : Option α) :
    (∃ x, (s, x) ∈ optMember name f o) ↔ (s = name ∧ o.isSome) := by
  cases o <;> simp [optMember]

theorem mem_keys_members (p : NotifPush) (s : String) :
    s ∈ p.members.map Prod.fst ↔
      s = "title" ∨ (s = "badge" ∧ p.badge.isSome) ∨ (s = "body" ∧ p.body.isSome) ∨
      (s = "data" ∧ p.data.isSome) ∨ (s = "icon" ∧ p.icon.isSome) ∨
      (s = "image" ∧ p.image.isSome) ∨ (s = "lang" ∧ p.lang.isSome) ∨
      (s = "renotify" ∧ p.renotify.isSome) ∨
      (s = "require_interaction" ∧ p.require_interaction.isSome) ∨
      (s = "silent" ∧ p.silent.isSome) ∨ (s = "tag" ∧ p.tag.isSome) ∨
      (s = "timestamp" ∧ p.timestamp.isSome) ∨ (s = "vibrate" ∧ p.vibrate.isSome) ∨
      (s = "actions" ∧ p.actions.isSome) := by
  simp [NotifPush.members, optMember_keys, or_assoc]

theorem actionsLoop_fst_length :
    ∀ (l : List Action) (count : Nat) (oac : List (String × Json)),
      (actionsLoop l count oac).1.length = l.length
  | [], _, _ => rfl
  | row :: rest, count, oac => by
    simp [actionsLoop, actionsLoop_fst_length rest]

theorem setKey_of_not_objOrNull (v : Json) (hv : v.isObjOrNull = false)
    (k : String) (x : Json) : v.setKey k x = none := by
  cases v <;> simp_all [Json.isObjOrNull, Json.setKey]

/-! Concrete inputs shared by several claims. -/

/-- A minimal descriptor: only the required title, every optional field
absent. -/
def minimalNotification : Notification :=
  { title := "t", badge := none, body := none, data := none, icon := none,
    image := none, lang := none, renotify := none, require_interaction := none,
    silent := none, tag := none, timestamp := none, vibrate := none,
    actions := none }

/-- The transform of `minimalNotification`. -/
def minimalPush : NotifPush :=
  { title := "t", badge := none, body := none, data := none, icon := none,
    image := none, lang := none, renotify := none, require_interaction := none,
    silent := none, tag := none, timestamp := none, vibrate := none,
    actions := none }

/-- A syntactically valid dispatch request. -/
def sampleRequest : NotificationRequest :=
  { subscription := { endpoint := "https://push.example.org/sub/1",
                      keys := { p256dh := "BPk", auth := "sec" } },
    notification := minimalNotification }

/-- A concrete keypair sample. -/
def sampleKp : ECKeyPair := ⟨1, 2, 3⟩

/-- A concrete key-file content sample. -/
def sampleKeys : KeysJson := { public_key := "pub", private_key := "priv" }

/-! Claim C1. -/

/-- The three-action input of the action-indexing property. -/
def c1Input : Notification :=
  { minimalNotification with
    actions := some [⟨"A", .OpenWindow, "u1"⟩, ⟨"default", .SendRequest, "u2"⟩,
                     ⟨"B", .FocusLastFocusedOrOpen, "u3"⟩] }

/-- The `onActionClick` member list the transform actually produces on
`c1Input` (keys in `BTreeMap` order). -/
def c1OnActionClick : List (String × Json) :=
  [("A1", .obj [("operation", .str "openWindow"), ("url", .str "u1")]),
   ("A3", .obj [("operation", .str "focusLastFocusedOrOpen"), ("url", .str "u3")]),
   ("default", .obj [("operation", .str "sendRequest"), ("url", .str "u2")])]

/-- The operation string recorded in the transform output's
`data.onActionClick` under a given action key. -/
def recordedOperation (value : Notification) (key : String) : Option String :=
  match NotifPush.fromNotification value with
  | some p =>
    match p.data with
    | some (.obj m) =>
      match getKey m "onActionClick" with
      | some (.obj oac) =>
        match getKey oac key with
        | some (.obj entry) =>
          match getKey entry "operation" with
          | some (.str s) => some s
          | _ => none
        | _ => none
      | _ => none
    | _ => none
  | none => none

/-- C1, counterexample: on the claimed input the operation strings the
transform records are the serde camelCase names (`"openWindow"`,
`"sendRequest"`, `"focusLastFocusedOrOpen"`), not the Pascal-case
variant names the claim writes (`"OpenWindow"`, …). -/
theorem C1_counterexample :
    recordedOperation c1Input "A1" = some "openWindow" ∧
    recordedOperation c1Input "A1" ≠ some "OpenWindow" ∧
    recordedOperation c1Input "default" = some "sendRequest" ∧
    recordedOperation c1Input "A3" = some "focusLastFocusedOrOpen" := by
  refine ⟨rfl, ?_, rfl, rfl⟩
  intro h
  have h0 : recordedOperation c1Input "A1" = some "openWindow" := rfl
  rw [h] at h0
  exact absurd (Option.some.inj h0) (by decide)

/-- C1 (amended): on input actions `[{title:"A", OpenWindow, "u1"},
{title:"default", SendRequest, "u2"}, {title:"B",
FocusLastFocusedOrOpen, "u3"}]` the transform outputs
`actions = [{action:"A1", title:"A"}, {action:"A3", title:"B"}]` (index
2 is consumed by the `"default"` action and never reused) and
`data.onActionClick` maps `"A1"` to `{operation:"openWindow",
url:"u1"}`, `"default"` to `{operation:"sendRequest", url:"u2"}` and
`"A3"` to `{operation:"focusLastFocusedOrOpen", url:"u3"}` — the
operation strings being the camelCase serde renames of the variant
names. -/
theorem C1_action_indexing :
    NotifPush.fromNotification c1Input =
      some { title := "t", badge := none, body := none,
             data := some (.obj [("onActionClick", .obj c1OnActionClick)]),
             icon := none, image := none, lang := none, renotify := none,
             require_interaction := none, silent := none, tag := none,
             timestamp := none, vibrate := none,
             actions := some [{ action := "A1", title := "A" },
                              { action := "A3", title := "B" }] } := rfl

/-! Claim C2. -/

/-- A descriptor with a data payload and no actions. -/
def c2Input : Notification :=
  { minimalNotification with data := some (.str "x") }

/-- C2, code bug: with no actions supplied the output indeed has no
`actions` field, but the input's present `data` is NOT kept — the
transform initializes its local `d` to `None` and only ever assigns it
inside the `actions.map` closure, so the input value
`data = some "x"` comes out as `data = none`. -/
theorem C2_data_dropped_on_no_actions :
    c2Input.data = some (.str "x") ∧
    c2Input.actions = none ∧
    (NotifPush.fromNotification c2Input).map NotifPush.actions = some none ∧
    (NotifPush.fromNotification c2Input).map NotifPush.data = some none :=
  ⟨rfl, rfl, rfl, rfl⟩

/-! Claim C3. -/

/-- The library-call environment of a request whose subscription keys
make the `web_push` payload encryption fail: `VapidSignatureBuilder`
succeeds but `WebPushMessageBuilder::build()` returns an error, which
the handler passes to `.unwrap()`. -/
def buildFailEnv : PushEnv :=
  { vapidFromBase64Ok := true, vapidBuildOk := true,
    messageBuildOk := false, sendOk := true }

/-- C3, code bug: when the web-push message build/encryption step fails
the handler does not convert the failure into an `InternalServerError`
response — it panics, because the result of
`builder.build()` is `.unwrap()`ed at the call site
(`routes/notify.rs`, `client.send(builder.build().unwrap())`). -/
theorem C3_message_build_failure_panics :
    notify buildFailEnv 0 sampleRequest = .panicked ∧
    ∀ r, notify buildFailEnv 0 sampleRequest ≠ .response r := by
  refine ⟨rfl, fun r h => ?_⟩
  rw [show notify buildFailEnv 0 sampleRequest = .panicked from rfl] at h
  exact HandlerResult.noConfusion h

/-! Claim C4. -/

/-- C4: the auth gate returns 401 when the `api_key` header is missing,
401 when it is present with a value different from the configured key,
and forwards the unchanged request when the value equals the key. -/
theorem C4_auth_gate (api_key : String) (req : NotificationRequest) :
    auth api_key none req = .unauthorized ∧
    (∀ v, v ≠ api_key → auth api_key (some v) req = .unauthorized) ∧
    auth api_key (some api_key) req = .forwarded req := by
  refine ⟨rfl, fun v hv => ?_, ?_⟩
  · simp [auth, hv]
  · simp [auth]

/-- C4, witness at a concrete key, header values and request. -/
theorem C4_auth_gate_witness :
    auth "secret" none sampleRequest = .unauthorized ∧
    auth "secret" (some "wrong") sampleRequest = .unauthorized ∧
    auth "secret" (some "secret") sampleRequest = .forwarded sampleRequest := by
  obtain ⟨h1, h2, h3⟩ := C4_auth_gate "secret" sampleRequest
  exact ⟨h1, h2 "wrong" (by decide), h3⟩

/-! Claim C5. -/

/-- C5: `load_conf_file` behaviour.  A file that reads but does not
parse aborts startup; an absent file leads to a freshly generated
keypair whose halves are the unpadded base64url encodings produced by
`generate_vapid_keys`, with the configuration written during startup
(`wroteFile = true`) and a write failure aborting before any
configuration is available; a file that reads and parses is used
unchanged with no write. -/
theorem C5_load_or_create (parseConf : String → Option ConfFile) (kp : ECKeyPair) :
    (∀ s w, parseConf s = none → load_conf_file (some s) parseConf kp w = .panicked) ∧
    load_conf_file none parseConf kp false = .panicked ∧
    load_conf_file none parseConf kp true =
      .conf (defaultConf (generate_vapid_keys kp)) true ∧
    ((generate_vapid_keys kp).public_key = String.mk (b64encode (pubBytes kp)) ∧
     (generate_vapid_keys kp).private_key = String.mk (b64encode (privBytes kp))) ∧
    (∀ s k w, parseConf s = some k →
      load_conf_file (some s) parseConf kp w = .conf k false) := by
  refine ⟨fun s w hp => ?_, rfl, rfl, ⟨rfl, rfl⟩, fun s k w hp => ?_⟩
  · simp [load_conf_file, hp]
  · simp [load_conf_file, hp]

/-- C5, witness at concrete parse outcomes, keypair and write results. -/
theorem C5_load_or_create_witness :
    load_conf_file (some "garbage") (fun _ => none) sampleKp true = .panicked ∧
    load_conf_file none (fun _ => none) sampleKp false = .panicked ∧
    load_conf_file none (fun _ => none) sampleKp true =
      .conf (defaultConf (generate_vapid_keys sampleKp)) true ∧
    load_conf_file (some "good") (fun _ => some (defaultConf sampleKeys)) sampleKp true =
      .conf (defaultConf sampleKeys) false := by
  obtain ⟨h1, h2, h3, _, _⟩ := C5_load_or_create (fun _ => none) sampleKp
  obtain ⟨_, _, _, _, g5⟩ :=
    C5_load_or_create (fun _ => some (defaultConf sampleKeys)) sampleKp
  exact ⟨h1 "garbage" true rfl, h2, h3, g5 "good" (defaultConf sampleKeys) true rfl⟩

/-! Claim C6. -/

/-- C6: for every keypair the generator can draw (scalar and
coordinates below `256 ^ 32`, as P-256 guarantees), the produced
`public_key` string decodes from unpadded base64url to exactly the
65-byte uncompressed point `0x04 ‖ X ‖ Y` with 32-byte big-endian
coordinates, and `private_key` decodes to exactly the 32-byte
big-endian (left-padded) scalar. -/
theorem C6_key_encoding (kp : ECKeyPair)
    (hd : kp.d < 256 ^ 32) (hx : kp.x < 256 ^ 32) (hy : kp.y < 256 ^ 32) :
    b64decode (generate_vapid_keys kp).public_key.toList = some (pubBytes kp) ∧
    (pubBytes kp).length = 65 ∧
    pubBytes kp = 4 :: (beBytes 32 kp.x ++ beBytes 32 kp.y) ∧
    (beBytes 32 kp.x).length = 32 ∧ (beBytes 32 kp.y).length = 32 ∧
    beVal (beBytes 32 kp.x) = kp.x ∧ beVal (beBytes 32 kp.y) = kp.y ∧
    b64decode (generate_vapid_keys kp).private_key.toList = some (privBytes kp) ∧
    (privBytes kp).length = 32 ∧
    beVal (privBytes kp) = kp.d := by
  have hpub : ∀ x ∈ pubBytes kp, x < 256 := by
    intro x hmem
    simp only [pubBytes, List.mem_cons, List.mem_append] at hmem
    rcases hmem with h | h | h
    · omega
    · exact beBytes_lt 32 kp.x x h
    · exact beBytes_lt 32 kp.y x h
  have hpriv : ∀ x ∈ privBytes kp, x < 256 := fun x h => beBytes_lt 32 kp.d x h
  have hpubStr : (generate_vapid_keys kp).public_key = String.mk (b64encode (pubBytes kp)) := rfl
  have hprivStr : (generate_vapid_keys kp).private_key = String.mk (b64encode (privBytes kp)) := rfl
  have hmk : ∀ l : List Char, (String.mk l).toList = l := fun l => rfl
  refine ⟨?_, ?_, rfl, beBytes_length 32 kp.x, beBytes_length 32 kp.y, ?_, ?_, ?_,
    beBytes_length 32 kp.d, ?_⟩
  · rw [hpubStr, hmk]; exact b64decode_b64encode (pubBytes kp) hpub
  · simp [pubBytes, beBytes_length]
  · rw [beVal_beBytes]; exact Nat.mod_eq_of_lt hx
  · rw [beVal_beBytes]; exact Nat.mod_eq_of_lt hy
  · rw [hprivStr, hmk]; exact b64decode_b64encode (privBytes kp) hpriv
  · rw [privBytes, beVal_beBytes]; exact Nat.mod_eq_of_lt hd

/-- C6, witness at the concrete keypair `⟨1, 2, 3⟩`. -/
theorem C6_key_encoding_witness :
    b64decode (generate_vapid_keys sampleKp).public_key.toList = some (pubBytes sampleKp) ∧
    (pubBytes sampleKp).length = 65 ∧
    pubBytes sampleKp = 4 :: (beBytes 32 sampleKp.x ++ beBytes 32 sampleKp.y) ∧
    (beBytes 32 sampleKp.x).length = 32 ∧ (beBytes 32 sampleKp.y).length = 32 ∧
    beVal (beBytes 32 sampleKp.x) = sampleKp.x ∧ beVal (beBytes 32 sampleKp.y) = sampleKp.y ∧
    b64decode (generate_vapid_keys sampleKp).private_key.toList = some (privBytes sampleKp) ∧
    (privBytes sampleKp).length = 32 ∧
    beVal (privBytes sampleKp) = sampleKp.d :=
  C6_key_encoding sampleKp (by norm_num [sampleKp]) (by norm_num [sampleKp]) (by norm_num [sampleKp])

/-! Claim C7. -/

/-- C7: in the serde serialization of the transform's output (the
member list of the `"notification"` object inside the wire JSON), every
optional field that is absent contributes no member at all — its key
does not occur, so in particular no `null` is emitted for it. -/
theorem C7_absent_fields_omitted (value : Notification) (p : NotifPush)
    (h : NotifPush.fromNotification value = some p) :
    (p.badge = none → "badge" ∉ (collectMembers p.members).map Prod.fst) ∧
    (p.body = none → "body" ∉ (collectMembers p.members).map Prod.fst) ∧
    (p.data = none → "data" ∉ (collectMembers p.members).map Prod.fst) ∧
    (p.icon = none → "icon" ∉ (collectMembers p.members).map Prod.fst) ∧
    (p.image = none → "image" ∉ (collectMembers p.members).map Prod.fst) ∧
    (p.lang = none → "lang" ∉ (collectMembers p.members).map Prod.fst) ∧
    (p.renotify = none → "renotify" ∉ (collectMembers p.members).map Prod.fst) ∧
    (p.require_interaction = none →
      "require_interaction" ∉ (collectMembers p.members).map Prod.fst) ∧
    (p.silent = none → "silent" ∉ (collectMembers p.members).map Prod.fst) ∧
    (p.tag = none → "tag" ∉ (collectMembers p.members).map Prod.fst) ∧
    (p.timestamp = none → "timestamp" ∉ (collectMembers p.members).map Prod.fst) ∧
    (p.vibrate = none → "vibrate" ∉ (collectMembers p.members).map Prod.fst) ∧
    (p.actions = none → "actions" ∉ (collectMembers p.members).map Prod.fst) := by
  refine ⟨?_, ?_, ?_, ?_, ?_, ?_, ?_, ?_, ?_, ?_, ?_, ?_, ?_⟩ <;>
    intro hf hmem <;>
    rw [mem_keys_collectMembers, mem_keys_members] at hmem <;>
    simp [hf] at hmem

/-- C7, witness: the minimal descriptor transforms to the all-absent
output, and its serialized members contain no `"badge"` key. -/
theorem C7_absent_fields_omitted_witness :
    NotifPush.fromNotification minimalNotification = some minimalPush ∧
    "badge" ∉ (collectMembers minimalPush.members).map Prod.fst :=
  ⟨rfl, (C7_absent_fields_omitted minimalNotification minimalPush rfl).1 rfl⟩

/-! Claim C8. -/

/-- C8: the public-key fetch returns the stored base64url public key
with status 200, or a 500 when the key file cannot be read or parsed.
The first three conjuncts cover the file-reading handler of `main.rs`
(read failure → 500, parse failure → 500, success → 200 with the stored
key; its response enum has no other variant); the last covers the
state-based handler of `routes/get_public_key.rs`, whose key file was
read once at startup and which always answers 200 with the stored
key. -/
theorem C8_public_key_fetch (readFile : Option String)
    (parseKeys : String → Option KeysJson) (conf : KeysJson) :
    (readFile = none →
      get_public_key_main readFile parseKeys =
        .InternalServerError "keys.json not found") ∧
    (∀ pem, readFile = some pem → parseKeys pem = none →
      get_public_key_main readFile parseKeys =
        .InternalServerError "VAPID keys parse error") ∧
    (∀ pem keys, readFile = some pem → parseKeys pem = some keys →
      get_public_key_main readFile parseKeys = .Ok keys.public_key) ∧
    get_public_key conf = .Ok conf.public_key := by
  refine ⟨fun h => ?_, fun pem h hp => ?_, fun pem keys h hp => ?_, rfl⟩
  · subst h; rfl
  · subst h; simp [get_public_key_main, hp]
  · subst h; simp [get_public_key_main, hp]

/-- C8, witness at concrete read and parse outcomes. -/
theorem C8_public_key_fetch_witness :
    get_public_key_main none (fun _ => none) =
      .InternalServerError "keys.json not found" ∧
    get_public_key_main (some "zzz") (fun _ => none) =
      .InternalServerError "VAPID keys parse error" ∧
    get_public_key_main (some "ok") (fun _ => some sampleKeys) = .Ok "pub" ∧
    get_public_key sampleKeys = .Ok "pub" := by
  obtain ⟨h1, _, _, h4⟩ := C8_public_key_fetch none (fun _ => none) sampleKeys
  obtain ⟨_, g2, _, _⟩ := C8_public_key_fetch (some "zzz") (fun _ => none) sampleKeys
  obtain ⟨_, _, k3, _⟩ :=
    C8_public_key_fetch (some "ok") (fun _ => some sampleKeys) sampleKeys
  exact ⟨h1 rfl, g2 "zzz" rfl rfl, k3 "ok" sampleKeys rfl rfl, h4⟩

/-! Claim C9. -/

/-- C9: the notification-to-wire transform (with the timestamp already
present, as the handler guarantees before converting) is deterministic —
the embedding is a pure function, so the serialized wire string of two
runs on the same descriptor is identical. -/
theorem C9_deterministic (value : Notification)
    (h : value.timestamp.isSome = true) :
    wirePayload value = wirePayload value := rfl

/-- C9, witness at a concrete timestamp-carrying descriptor. -/
theorem C9_deterministic_witness :
    ({ minimalNotification with timestamp := some 5 } : Notification).timestamp.isSome
        = true ∧
    wirePayload { minimalNotification with timestamp := some 5 } =
      wirePayload { minimalNotification with timestamp := some 5 } :=
  ⟨rfl, C9_deterministic { minimalNotification with timestamp := some 5 } rfl⟩

/-! Claim C10. -/

/-- C10: with a present `data` value that is neither a JSON object nor
`null` and a non-empty action list, the transform panics (the
`data["onActionClick"] = …` assignment), modelled as the `none`
result. -/
theorem C10_nonobject_data_panics (value : Notification) (v : Json) (l : List Action)
    (hdata : value.data = some v) (hv : v.isObjOrNull = false)
    (hact : value.actions = some l) (hne : l ≠ []) :
    NotifPush.fromNotification value = none := by
  have hlen : 0 < (actionsLoop l 0 []).1.length := by
    rw [actionsLoop_fst_length]
    exact List.length_pos.mpr hne
  have hsk := setKey_of_not_objOrNull v hv "onActionClick" (.obj (actionsLoop l 0 []).2)
  simp [NotifPush.fromNotification, hact, hdata, hlen, hsk]

/-- An input with a string `data` payload and one action. -/
def c10Input : Notification :=
  { minimalNotification with
    data := some (.str "payload")
    actions := some [⟨"A", .OpenWindow, "u"⟩] }

/-- C10, witness at the concrete input with `data = "payload"` and one
action. -/
theorem C10_nonobject_data_panics_witness :
    c10Input.data = some (.str "payload") ∧
    (Json.str "payload").isObjOrNull = false ∧
    c10Input.actions = some [⟨"A", .OpenWindow, "u"⟩] ∧
    NotifPush.fromNotification c10Input = none :=
  ⟨rfl, rfl, rfl,
    C10_nonobject_data_panics c10Input (.str "payload") [⟨"A", .OpenWindow, "u"⟩]
      rfl rfl rfl (by decide)⟩

end WebPush
